import Mathlib

/-!
Shallow embedding of `netmiko/linux/linux_ssh.py` (classes `LinuxSSH` and
`LinuxFileTransfer`) and proofs of the specification claims about it.

The source methods are modelled as pure functions over an explicit session
state.  External collaborators (the channel and the base-class helpers that
are not part of this file's source) are modelled as an explicit environment:
a channel read either returns data or signals a transport timeout
(`socket.timeout`), and the base-prompt refresh either returns the fresh
prompt or times out.  Every channel interaction is recorded in an event
trace so that claims about "exactly one write" and "no channel write" are
provable.

Python exceptions are modelled by the `NetmikoError` type:
`timeoutException` is `NetmikoTimeoutException` (the spec's
SessionTimeoutError), `valueError` is `ValueError` (the spec's
PermissionError / FatalStateError depending on the raising site),
`socketTimeout` is a raw `socket.timeout` escaping uncaught, and
`notImplementedError` is `NotImplementedError` (the spec's
UnsupportedOperationError).
-/

/-- `os.getenv("NETMIKO_LINUX_PROMPT_PRI", "$")` — default value, the
environment override is external configuration. -/
def LINUX_PROMPT_PRI : String := "$"

/-- `os.getenv("NETMIKO_LINUX_PROMPT_ALT", "#")` — default value. -/
def LINUX_PROMPT_ALT : String := "#"

/-- `os.getenv("NETMIKO_LINUX_PROMPT_ROOT", "#")` — default value. -/
def LINUX_PROMPT_ROOT : String := "#"

/-- Python exception values raised by the modelled methods. -/
inductive NetmikoError where
  | timeoutException (msg : String)
  | valueError (msg : String)
  | socketTimeout
  | notImplementedError
deriving DecidableEq, Repr

/-- Result of a fallible channel interaction: data, or `socket.timeout`. -/
inductive ChResult (α : Type) where
  | ok (a : α)
  | timeout
deriving DecidableEq, Repr

/-- The mutable session state of `LinuxSSH` that the modelled methods read
and write: the cached base prompt, the login username, the elevation
credential (`secret`) and the configured delay factor. -/
structure Session where
  base_prompt : String
  username : String
  secret : String
  global_delay_factor : Nat
deriving DecidableEq, Repr

/-- Behaviour of the external channel collaborators during one method call:
the outcome of `read_channel()` and the outcome of `set_base_prompt()`
(the refreshed prompt, or a transport timeout while reading it). -/
structure Env where
  read_channel : ChResult String
  set_base_prompt : ChResult String
deriving DecidableEq, Repr

/-- Channel interactions performed by a method call, in order. -/
inductive Event where
  | write (data : String)
  | sleep (delay_factor : Nat)
  | readCh
  | promptRefresh
deriving DecidableEq, Repr

/-- Modelled from the spec: the scaled-delay selection collaborator
(`BaseConnection.select_delay_factor`, not in src/) resolves the requested
factor against the session-wide response-delay scale factor. -/
def select_delay_factor (s : Session) (delay_factor : Nat) : Nat :=
  max delay_factor s.global_delay_factor

/-- Modelled from the spec: the command-normalization collaborator
(`BaseConnection.normalize_cmd`, not in src/) terminates the command line
before it is written to the channel. -/
def normalize_cmd (cmd : String) : String := cmd ++ "\n"

/-- Modelled from the spec: the base-class privilege check
(`BaseConnection.check_enable_mode`, not in src/) reports whether the
last-known base prompt ends with `check_string`; it performs no channel
I/O by itself. -/
def check_enable_mode (s : Session)
    (check_string : String := LINUX_PROMPT_ROOT) : Bool :=
  check_string.data.isSuffixOf s.base_prompt.data

/-- Modelled from the spec: credential-prompt matching (`re.search` with
optional `re.IGNORECASE`, Python stdlib), restricted to the literal
patterns the source uses: substring containment, case-folded when the
case-insensitive flag is set. -/
def re_search (pattern text : String) (ignoreCase : Bool) : Bool :=
  if ignoreCase then decide (List.IsInfix pattern.toLower.data text.toLower.data)
  else decide (List.IsInfix pattern.data text.data)

/-- The exact message of the `ValueError` raised by `LinuxSSH.enable` when
the session is still not elevated after the elevation sequence. -/
def enableFailMsg : String :=
  "Failed to enter enable mode. Please ensure you pass " ++
    "the \x27secret\x27 argument to ConnectHandler."

/-- The exact message of the `NetmikoTimeoutException` raised by
`LinuxSSH.enable` on a channel read timeout. -/
def enableTimeoutMsg : String :=
  "Timed-out reading channel, data not available."

/-- The exact message of the `ValueError` raised by
`LinuxSSH.exit_enable_mode` when the session is still elevated after the
exit sequence. -/
def exitEnableFailMsg : String := "Failed to exit enable mode."

/-- `LinuxSSH.enable` (lines 99-127): if not already in enable mode, write
the elevation command, sleep a scaled delay, read the channel (supplying
the stored secret if the output matches the credential-prompt pattern) and
refresh the base prompt — translating a `socket.timeout` in that block to
`NetmikoTimeoutException` — then raise `ValueError` if still not in enable
mode.  Returns the accumulated output and the updated session, paired with
the trace of channel interactions. -/
def enable (s : Session) (env : Env) (cmd : String := "sudo -s")
    (pattern : String := "ssword") (enable_pattern : Option String := none)
    (ignoreCase : Bool := true) :
    Except NetmikoError (Session × String) × List Event :=
  let df := select_delay_factor s 0
  if check_enable_mode s then
    (Except.ok (s, ""), [])
  else
    let evs0 := [Event.write (normalize_cmd cmd), Event.sleep df]
    match env.read_channel with
    | ChResult.timeout =>
        (Except.error (NetmikoError.timeoutException enableTimeoutMsg),
         evs0 ++ [Event.readCh])
    | ChResult.ok data =>
        let output := "" ++ data
        let secretEvs :=
          if re_search pattern output ignoreCase then
            [Event.write (normalize_cmd s.secret)]
          else []
        match env.set_base_prompt with
        | ChResult.timeout =>
            (Except.error (NetmikoError.timeoutException enableTimeoutMsg),
             evs0 ++ [Event.readCh] ++ secretEvs)
        | ChResult.ok p =>
            let s2 := { s with base_prompt := p }
            let evs := evs0 ++ [Event.readCh] ++ secretEvs ++ [Event.promptRefresh]
            if check_enable_mode s2 then
              (Except.ok (s2, output), evs)
            else
              (Except.error (NetmikoError.valueError enableFailMsg), evs)

/-- `LinuxSSH.exit_enable_mode` (lines 87-97): if in enable mode, write the
exit command, sleep a scaled delay, refresh the base prompt (any
`socket.timeout` there is NOT caught and propagates raw), then raise
`ValueError` if still in enable mode; always returns the empty output
string on success. -/
def exit_enable_mode (s : Session) (env : Env)
    (exit_command : String := "exit") :
    Except NetmikoError (Session × String) × List Event :=
  let df := select_delay_factor s 0
  if check_enable_mode s then
    let evs0 := [Event.write (normalize_cmd exit_command), Event.sleep df]
    match env.set_base_prompt with
    | ChResult.timeout =>
        (Except.error NetmikoError.socketTimeout, evs0)
    | ChResult.ok p =>
        let s2 := { s with base_prompt := p }
        let evs := evs0 ++ [Event.promptRefresh]
        if check_enable_mode s2 then
          (Except.error (NetmikoError.valueError exitEnableFailMsg), evs)
        else
          (Except.ok (s2, ""), evs)
  else
    (Except.ok (s, ""), [])

/-- `LinuxSSH.config_mode` (lines 71-78): alias for `enable`. -/
def config_mode (s : Session) (env : Env)
    (config_command : String := "sudo -s") (pattern : String := "ssword")
    (ignoreCase : Bool := true) :
    Except NetmikoError (Session × String) × List Event :=
  enable s env config_command pattern none ignoreCase

/-- `LinuxSSH.exit_config_mode` (lines 80-81): alias for
`exit_enable_mode`; the `pattern` argument is accepted and ignored. -/
def exit_config_mode (s : Session) (env : Env)
    (exit_config : String := "exit") (pattern : String := "") :
    Except NetmikoError (Session × String) × List Event :=
  exit_enable_mode s env exit_config

/-- `LinuxSSH.check_config_mode` (lines 65-69): alias for
`check_enable_mode`; the `pattern` argument is accepted and ignored. -/
def check_config_mode (s : Session)
    (check_string : String := LINUX_PROMPT_ROOT) (pattern : String := "") :
    Bool :=
  check_enable_mode s check_string

/-- The arguments `LinuxSSH.send_config_set` forwards to the generic
execution collaborator `super().send_config_set` (not in src/). -/
structure ConfigSetCall (α : Type) where
  config_commands : α
  exit_config_mode : Bool
deriving DecidableEq, Repr

/-- `LinuxSSH.send_config_set` (lines 52-63): forces `exit_config_mode` to
`false` when the username is root, then forwards both arguments unchanged
to the generic execution collaborator. -/
def send_config_set {α : Type} (s : Session) (config_commands : α)
    (exit_config_mode : Bool := true) : ConfigSetCall α :=
  let e := if s.username = "root" then false else exit_config_mode
  { config_commands := config_commands, exit_config_mode := e }

/-- `LinuxSSH.save_config` (lines 133-135): unconditionally raises
`NotImplementedError`. -/
def save_config (s : Session) {α : Type} (args : α) :
    Except NetmikoError String :=
  Except.error NetmikoError.notImplementedError

/-- The immutable file-transfer descriptor of `LinuxFileTransfer`
(constructor, lines 145-161): source file, destination file, remote
file-system root (default `/var/tmp`) and transfer direction. -/
structure FileTransfer where
  source_file : String
  dest_file : String
  file_system : String := "/var/tmp"
  direction : String := "put"
deriving DecidableEq, Repr

/-- Behaviour of the control channel during a `remote_md5` call: the raw
output returned by `_send_command_str` for a given command string and read
timeout. -/
structure FTEnv where
  send_command : String → Nat → String

/-- Python `str(...)` of an optional string, as an f-string renders it:
`None` becomes the text `"None"`. -/
def pyStr (o : Option String) : String :=
  match o with
  | some s => s
  | none => "None"

/-- `LinuxFileTransfer.process_md5` (lines 192-196) with its fixed pattern
`^(\S+)\s+`.  Modelled from the spec: the base-class parser
(`BaseFileTransfer.process_md5`, not in src/) applies the given pattern to
the raw output and returns the first captured group, failing when the
pattern does not match.  For this pattern that is: the maximal nonempty
leading run of non-whitespace characters, provided it is followed by at
least one whitespace character. -/
def process_md5 (md5_output : String) : Option String :=
  let tok := md5_output.data.takeWhile (fun c => !c.isWhitespace)
  let rest := md5_output.data.drop tok.length
  match tok, rest with
  | [], _ => none
  | _ :: _, [] => none
  | c :: cs, _ :: _ => some (String.mk (c :: cs))

/-- `LinuxFileTransfer.remote_md5` (lines 179-190): resolve the remote file
(destination on put, source on get) when no override is given, build the
command `"<base_cmd> <file_system>/<remote_file>"`, send it with a read
timeout of 300, then parse and trim the hash.  Returns the result paired
with the issued command string and the read timeout used. -/
def remote_md5 (ft : FileTransfer) (env : FTEnv)
    (base_cmd : String := "md5sum") (remote_file : Option String := none) :
    Except NetmikoError String × (String × Nat) :=
  let rf : Option String :=
    match remote_file with
    | some f => some f
    | none =>
        if ft.direction = "put" then some ft.dest_file
        else if ft.direction = "get" then some ft.source_file
        else none
  let remote_md5_cmd := base_cmd ++ " " ++ ft.file_system ++ "/" ++ pyStr rf
  let raw := env.send_command remote_md5_cmd 300
  match process_md5 raw with
  | some h => (Except.ok h.trim, (remote_md5_cmd, 300))
  | none =>
      (Except.error (NetmikoError.valueError
        ("Invalid output from MD5 command: " ++ raw)),
       (remote_md5_cmd, 300))

/-- `LinuxFileTransfer.enable_scp` (lines 198-199): unconditionally raises
`NotImplementedError`. -/
def enable_scp (ft : FileTransfer) (cmd : String := "") :
    Except NetmikoError Unit :=
  Except.error NetmikoError.notImplementedError

/-- `LinuxFileTransfer.disable_scp` (lines 201-202): unconditionally raises
`NotImplementedError`. -/
def disable_scp (ft : FileTransfer) (cmd : String := "") :
    Except NetmikoError Unit :=
  Except.error NetmikoError.notImplementedError

/-- Appending to the empty string is the identity (helper). -/
theorem empty_string_append (s : String) : "" ++ s = s := by
  apply String.ext
  rw [String.data_append]
  rfl

/-- Whether a method result is the domain-specific timeout failure
(`NetmikoTimeoutException`), as opposed to any other outcome. -/
def raisesSessionTimeout (r : Except NetmikoError (Session × String)) : Bool :=
  match r with
  | Except.error (NetmikoError.timeoutException _) => true
  | _ => false

/-- C4: for every session already in the Privileged state, `enable` is an
idempotent no-op: it issues no channel write (empty trace) and returns
empty output with the session unchanged, and a second consecutive call (on
the unchanged session, under any channel behaviour) behaves identically. -/
theorem enable_idempotent_when_privileged (s : Session) (env env2 : Env)
    (cmd pattern : String) (ep ep2 : Option String) (ic ic2 : Bool)
    (h : check_enable_mode s = true) :
    enable s env cmd pattern ep ic = (Except.ok (s, ""), []) ∧
    enable s env2 cmd pattern ep2 ic2 = (Except.ok (s, ""), []) := by
  constructor <;> simp [enable, h]

/-- C4 witness: a concrete root-prompt session. -/
theorem enable_idempotent_when_privileged_witness :
    check_enable_mode ⟨"[root@host ~]#", "admin", "pw", 1⟩ = true ∧
    enable ⟨"[root@host ~]#", "admin", "pw", 1⟩
        ⟨ChResult.ok "x", ChResult.ok "y"⟩ "sudo -s" "ssword" none true =
      (Except.ok (⟨"[root@host ~]#", "admin", "pw", 1⟩, ""), []) ∧
    enable ⟨"[root@host ~]#", "admin", "pw", 1⟩
        ⟨ChResult.timeout, ChResult.timeout⟩ "sudo -s" "ssword" none true =
      (Except.ok (⟨"[root@host ~]#", "admin", "pw", 1⟩, ""), []) := by
  refine ⟨by decide, ?_⟩
  exact enable_idempotent_when_privileged _ _ _ _ _ _ _ _ _ (by decide)

/-- C5: `send_config_set` forces the exit flag to false and never forwards
a true exit flag when the username is the superuser identity `root`; for
any other identity the caller's flag and commands are forwarded
unchanged. -/
theorem send_config_set_root_override {α : Type} (s t : Session) (cc : α)
    (e e2 : Bool) (hs : s.username = "root") (ht : t.username ≠ "root") :
    send_config_set s cc e = ⟨cc, false⟩ ∧
    send_config_set t cc e2 = ⟨cc, e2⟩ := by
  constructor <;> simp [send_config_set, hs, ht]

/-- C5 witness: a root session with `exit_config_mode = true` forwarded as
false, and a non-root session forwarded unchanged. -/
theorem send_config_set_root_override_witness :
    ((⟨"h#", "root", "pw", 1⟩ : Session).username = "root") ∧
    ((⟨"h$", "alice", "pw", 1⟩ : Session).username ≠ "root") ∧
    send_config_set ⟨"h#", "root", "pw", 1⟩ ["ls"] true =
      ⟨["ls"], false⟩ ∧
    send_config_set ⟨"h$", "alice", "pw", 1⟩ ["ls"] true =
      ⟨["ls"], true⟩ := by
  refine ⟨by decide, by decide, ?_⟩
  exact send_config_set_root_override ⟨"h#", "root", "pw", 1⟩
    ⟨"h$", "alice", "pw", 1⟩ ["ls"] true true (by decide) (by decide)

/-- C8: `save_config`, `enable_scp` and `disable_scp` fail unconditionally
with `NotImplementedError` for all arguments, with no other effect. -/
theorem unsupported_operations_raise {α : Type} (s : Session) (args : α)
    (ft : FileTransfer) (c1 c2 : String) :
    save_config s args = Except.error NetmikoError.notImplementedError ∧
    enable_scp ft c1 = Except.error NetmikoError.notImplementedError ∧
    disable_scp ft c2 = Except.error NetmikoError.notImplementedError :=
  ⟨rfl, rfl, rfl⟩

/-- C9: the command-mode operations are exact aliases of the elevation
operations: `config_mode` equals `enable` (whose unused `enable_pattern`
argument is irrelevant), `exit_config_mode` equals `exit_enable_mode` and
`check_config_mode` equals `check_enable_mode`, for every argument
assignment, session state and channel behaviour. -/
theorem config_mode_aliases_enable (s : Session) (env : Env)
    (c p e pat cs pat2 : String) (ep : Option String) (ic : Bool) :
    config_mode s env c p ic = enable s env c p none ic ∧
    enable s env c p ep ic = enable s env c p none ic ∧
    exit_config_mode s env e pat = exit_enable_mode s env e ∧
    check_config_mode s cs pat2 = check_enable_mode s cs :=
  ⟨rfl, rfl, rfl, rfl⟩

/-- C10: every successful return of `exit_enable_mode` — including the path
that writes the exit command and refreshes the prompt — carries the empty
output string. -/
theorem exit_enable_mode_returns_empty (s : Session) (env : Env)
    (c : String) (s2 : Session) (out : String)
    (h : (exit_enable_mode s env c).1 = Except.ok (s2, out)) : out = "" := by
  unfold exit_enable_mode at h
  by_cases h1 : check_enable_mode s
  · simp [h1] at h
    rcases henv : env.set_base_prompt with p | _
    · simp [henv] at h
      by_cases h2 : check_enable_mode { s with base_prompt := p }
      · simp [h2] at h
      · simp [h2] at h
        exact h.2.symm
    · simp [henv] at h
  · simp [h1] at h
    exact h.2.symm

/-- C1: if, after `enable` has written the elevation command, optionally
supplied the credential, and refreshed the base prompt, the session is
still not elevated, then `enable` fails with the single `ValueError` (the
spec's PermissionError): the trace shows exactly one write of the
elevation command (no retry), and the failure message names the `secret`
credential argument the caller must supply. -/
theorem enable_unelevated_failure_single_permission_error
    (s : Session) (env : Env) (cmd pattern data p : String)
    (ep : Option String) (ic : Bool)
    (hne : check_enable_mode s = false)
    (hrd : env.read_channel = ChResult.ok data)
    (hsp : env.set_base_prompt = ChResult.ok p)
    (hstill : check_enable_mode { s with base_prompt := p } = false) :
    enable s env cmd pattern ep ic =
      (Except.error (NetmikoError.valueError enableFailMsg),
       [Event.write (normalize_cmd cmd),
        Event.sleep (select_delay_factor s 0), Event.readCh] ++
       (if re_search pattern data ic then
          [Event.write (normalize_cmd s.secret)] else []) ++
       [Event.promptRefresh]) ∧
    List.IsInfix "secret".data enableFailMsg.data := by
  refine ⟨?_, by decide⟩
  simp [enable, hne, hrd, hsp, hstill, empty_string_append]

/-- C1 witness: an unelevated session offered a password prompt whose
refreshed prompt still lacks the root terminator. -/
theorem enable_unelevated_failure_witness :
    check_enable_mode ⟨"host$", "user", "pw", 1⟩ = false ∧
    enable ⟨"host$", "user", "pw", 1⟩
        ⟨ChResult.ok "Password:", ChResult.ok "host$"⟩
        "sudo -s" "ssword" none true =
      (Except.error (NetmikoError.valueError enableFailMsg),
       [Event.write (normalize_cmd "sudo -s"),
        Event.sleep (select_delay_factor ⟨"host$", "user", "pw", 1⟩ 0),
        Event.readCh] ++
       (if re_search "ssword" "Password:" true then
          [Event.write (normalize_cmd "pw")] else []) ++
       [Event.promptRefresh]) ∧
    List.IsInfix "secret".data enableFailMsg.data := by
  have h := enable_unelevated_failure_single_permission_error
    ⟨"host$", "user", "pw", 1⟩ ⟨ChResult.ok "Password:", ChResult.ok "host$"⟩
    "sudo -s" "ssword" "Password:" "host$" none true
    (by decide) rfl rfl (by decide)
  exact ⟨by decide, h.1, h.2⟩

/-- C2 counterexample: on a Privileged session whose prompt refresh hits a
channel read timeout, `exit_enable_mode` raises the RAW transport timeout
(`socket.timeout`), not the domain-specific `NetmikoTimeoutException`, so
the claim that every read timeout during de-elevation is re-signaled as
the domain timeout is false on the code. -/
theorem exit_enable_mode_raw_timeout_counterexample :
    (exit_enable_mode ⟨"host#", "user", "pw", 1⟩
        ⟨ChResult.ok "", ChResult.timeout⟩ "exit").1 =
      Except.error NetmikoError.socketTimeout ∧
    raisesSessionTimeout ((exit_enable_mode ⟨"host#", "user", "pw", 1⟩
        ⟨ChResult.ok "", ChResult.timeout⟩ "exit").1) = false :=
  ⟨rfl, rfl⟩

/-- C2 amended: every channel read timeout during `enable` is translated
into the domain-specific `NetmikoTimeoutException`, but a channel read
timeout during `exit_enable_mode` propagates as the raw transport
timeout with no translation. -/
theorem timeout_translation_boundary (s t : Session) (env env2 : Env)
    (cmd pattern c : String) (ep : Option String) (ic : Bool)
    (hs : check_enable_mode s = false)
    (henv : env.read_channel = ChResult.timeout ∨
      env.set_base_prompt = ChResult.timeout)
    (ht : check_enable_mode t = true)
    (henv2 : env2.set_base_prompt = ChResult.timeout) :
    (enable s env cmd pattern ep ic).1 =
      Except.error (NetmikoError.timeoutException enableTimeoutMsg) ∧
    (exit_enable_mode t env2 c).1 =
      Except.error NetmikoError.socketTimeout := by
  constructor
  · rcases henv with h | h
    · simp [enable, hs, h]
    · rcases hr : env.read_channel with d | _
      · simp [enable, hs, hr, h]
      · simp [enable, hs, hr]
  · simp [exit_enable_mode, ht, henv2]

/-- C2 amended witness: a timed-out elevation read and a timed-out
de-elevation prompt refresh. -/
theorem timeout_translation_boundary_witness :
    check_enable_mode ⟨"host$", "user", "pw", 1⟩ = false ∧
    check_enable_mode ⟨"host#", "user", "pw", 1⟩ = true ∧
    (enable ⟨"host$", "user", "pw", 1⟩ ⟨ChResult.timeout, ChResult.timeout⟩
        "sudo -s" "ssword" none true).1 =
      Except.error (NetmikoError.timeoutException enableTimeoutMsg) ∧
    (exit_enable_mode ⟨"host#", "user", "pw", 1⟩
        ⟨ChResult.ok "", ChResult.timeout⟩ "exit").1 =
      Except.error NetmikoError.socketTimeout := by
  have h := timeout_translation_boundary
    ⟨"host$", "user", "pw", 1⟩ ⟨"host#", "user", "pw", 1⟩
    ⟨ChResult.timeout, ChResult.timeout⟩ ⟨ChResult.ok "", ChResult.timeout⟩
    "sudo -s" "ssword" "exit" none true
    (by decide) (Or.inl rfl) (by decide) rfl
  exact ⟨by decide, by decide, h.1, h.2⟩

/-- C3: `exit_enable_mode` on an Unprivileged session returns empty output
with no channel interaction at all; on a Privileged session whose prompt
refresh succeeds, it writes the exit command exactly once, sleeps the
scaled delay, refreshes the prompt, and fails with the `ValueError` (the
spec's FatalStateError) if and only if the refreshed prompt still ends in
the elevated terminator — with no retry of the exit sequence. -/
theorem exit_enable_mode_single_attempt (s t : Session) (env : Env)
    (c p : String)
    (hs : check_enable_mode s = false)
    (ht : check_enable_mode t = true)
    (hp : env.set_base_prompt = ChResult.ok p) :
    exit_enable_mode s env c = (Except.ok (s, ""), []) ∧
    (exit_enable_mode t env c).2 =
      [Event.write (normalize_cmd c), Event.sleep (select_delay_factor t 0),
       Event.promptRefresh] ∧
    ((exit_enable_mode t env c).1 =
        Except.error (NetmikoError.valueError exitEnableFailMsg) ↔
      check_enable_mode { t with base_prompt := p } = true) := by
  refine ⟨by simp [exit_enable_mode, hs], ?_, ?_⟩
  · by_cases h2 : check_enable_mode { t with base_prompt := p } <;>
      simp [exit_enable_mode, ht, hp, h2]
  · by_cases h2 : check_enable_mode { t with base_prompt := p } <;>
      simp [exit_enable_mode, ht, hp, h2]

/-- C3 witness: an Unprivileged session left untouched, and a Privileged
session whose refreshed prompt still ends in the root terminator, so the
single-attempt exit fails. -/
theorem exit_enable_mode_single_attempt_witness :
    check_enable_mode ⟨"host$", "user", "pw", 1⟩ = false ∧
    check_enable_mode ⟨"host#", "user", "pw", 1⟩ = true ∧
    exit_enable_mode ⟨"host$", "user", "pw", 1⟩
        ⟨ChResult.ok "", ChResult.ok "still#"⟩ "exit" =
      (Except.ok (⟨"host$", "user", "pw", 1⟩, ""), []) ∧
    (exit_enable_mode ⟨"host#", "user", "pw", 1⟩
        ⟨ChResult.ok "", ChResult.ok "still#"⟩ "exit").1 =
      Except.error (NetmikoError.valueError exitEnableFailMsg) := by
  have h := exit_enable_mode_single_attempt
    ⟨"host$", "user", "pw", 1⟩ ⟨"host#", "user", "pw", 1⟩
    ⟨ChResult.ok "", ChResult.ok "still#"⟩ "exit" "still#"
    (by decide) (by decide) rfl
  exact ⟨by decide, by decide, h.1, h.2.2.mpr (by decide)⟩

/-- C10 witness: a Privileged session whose exit succeeds still returns
the empty output string. -/
theorem exit_enable_mode_returns_empty_witness :
    (exit_enable_mode ⟨"host#", "user", "pw", 1⟩
        ⟨ChResult.ok "", ChResult.ok "host$"⟩ "exit").1 =
      Except.ok (⟨"host$", "user", "pw", 1⟩, "") ∧ ("" : String) = "" := by
  refine ⟨rfl, ?_⟩
  exact exit_enable_mode_returns_empty ⟨"host#", "user", "pw", 1⟩
    ⟨ChResult.ok "", ChResult.ok "host$"⟩ "exit"
    ⟨"host$", "user", "pw", 1⟩ "" rfl

/-- Helper: `takeWhile` keeps exactly the left part of an append when the
left part wholly satisfies the predicate and the right part starts with a
failing element. -/
theorem takeWhile_append_sat (p : Char → Bool) (l : List Char) (x : Char)
    (r : List Char) (hl : ∀ c ∈ l, p c = true) (hx : p x = false) :
    (l ++ x :: r).takeWhile p = l := by
  induction l with
  | nil => simp [List.takeWhile_cons, hx]
  | cons a as ih =>
      have ha : p a = true := hl a (by simp)
      simp only [List.cons_append, List.takeWhile_cons, ha, if_true]
      rw [ih (fun c hc => hl c (by simp [hc]))]

/-- C7: `process_md5` is a pure function of the raw output string alone
(callable with no session), and on conventional checksum output
`"<hash>  <filename>"` — a nonempty, whitespace-free hash followed by
whitespace and the file name — it returns exactly the leading
whitespace-delimited token (which carries no surrounding whitespace); in
particular it maps the spec's example input to the example hash. -/
theorem process_md5_leading_token (h f : String) (hne : h ≠ "")
    (hnw : ∀ c ∈ h.data, c.isWhitespace = false) :
    process_md5 (h ++ "  " ++ f) = some h ∧
    process_md5 "d41d8cd98f00b204e9800998ecf8427e  file.bin" =
      some "d41d8cd98f00b204e9800998ecf8427e" := by
  refine ⟨?_, by decide⟩
  have hdata : (h ++ "  " ++ f).data = h.data ++ ' ' :: ' ' :: f.data := by
    rw [String.data_append, String.data_append, List.append_assoc]
    rfl
  have htok : (h ++ "  " ++ f).data.takeWhile (fun c => !c.isWhitespace) =
      h.data := by
    rw [hdata]
    exact takeWhile_append_sat _ _ _ _ (fun c hc => by simp [hnw c hc]) rfl
  have hrest : List.drop h.data.length (h ++ "  " ++ f).data =
      ' ' :: ' ' :: f.data := by
    rw [hdata]
    exact List.drop_left _ _
  have hd : h.data ≠ [] := by
    intro hn
    exact hne (String.ext (hn.trans rfl))
  obtain ⟨c, cs, hcs⟩ := List.exists_cons_of_ne_nil hd
  simp only [process_md5]
  rw [htok, hrest, hcs]
  show some (String.mk (c :: cs)) = some h
  rw [← hcs]

/-- C7 witness: the spec's example, built from its hash and file name. -/
theorem process_md5_leading_token_witness :
    ("d41d8cd98f00b204e9800998ecf8427e" : String) ≠ "" ∧
    process_md5 ("d41d8cd98f00b204e9800998ecf8427e" ++ "  " ++ "file.bin") =
      some "d41d8cd98f00b204e9800998ecf8427e" := by
  have h := process_md5_leading_token "d41d8cd98f00b204e9800998ecf8427e"
    "file.bin" (by decide) (by decide)
  exact ⟨by decide, h.1⟩

/-- C6: `remote_md5` with no remote-file override issues exactly the
command `"<base_cmd> <file_system>/<dest_file>"` when direction is put and
`"<base_cmd> <file_system>/<source_file>"` when direction is get, over the
control channel with a read timeout of 300, and returns the parsed,
trimmed hash of the raw command output. -/
theorem remote_md5_command_resolution (fp fg : FileTransfer) (env : FTEnv)
    (bc h1 h2 : String)
    (hput : fp.direction = "put") (hget : fg.direction = "get")
    (hparse1 : process_md5 (env.send_command
        (bc ++ " " ++ fp.file_system ++ "/" ++ fp.dest_file) 300) = some h1)
    (hparse2 : process_md5 (env.send_command
        (bc ++ " " ++ fg.file_system ++ "/" ++ fg.source_file) 300) = some h2) :
    remote_md5 fp env bc none =
      (Except.ok h1.trim,
       (bc ++ " " ++ fp.file_system ++ "/" ++ fp.dest_file, 300)) ∧
    remote_md5 fg env bc none =
      (Except.ok h2.trim,
       (bc ++ " " ++ fg.file_system ++ "/" ++ fg.source_file, 300)) := by
  constructor
  · simp [remote_md5, hput, pyStr, hparse1]
  · simp [remote_md5, hget, pyStr, hparse2]

/-- C6 witness: the spec's example — `md5sum`, remote root `/var/tmp`,
resolved remote file `a.txt` on a put transfer — issues exactly
`"md5sum /var/tmp/a.txt"`; a get transfer resolves the source file. -/
theorem remote_md5_command_resolution_witness :
    remote_md5 ⟨"local.txt", "a.txt", "/var/tmp", "put"⟩
        ⟨fun _ _ => "d41d8cd98f00b204e9800998ecf8427e  a.txt"⟩ "md5sum" none =
      (Except.ok ("d41d8cd98f00b204e9800998ecf8427e" : String).trim,
       ("md5sum /var/tmp/a.txt", 300)) ∧
    remote_md5 ⟨"b.txt", "dest.txt", "/var/tmp", "get"⟩
        ⟨fun _ _ => "d41d8cd98f00b204e9800998ecf8427e  b.txt"⟩ "md5sum" none =
      (Except.ok ("d41d8cd98f00b204e9800998ecf8427e" : String).trim,
       ("md5sum /var/tmp/b.txt", 300)) := by
  have hw := remote_md5_command_resolution
    ⟨"local.txt", "a.txt", "/var/tmp", "put"⟩
    ⟨"b.txt", "dest.txt", "/var/tmp", "get"⟩
    ⟨fun _ _ => "d41d8cd98f00b204e9800998ecf8427e  a.txt"⟩ "md5sum"
    "d41d8cd98f00b204e9800998ecf8427e" "d41d8cd98f00b204e9800998ecf8427e"
    rfl rfl (by decide) (by decide)
  exact ⟨hw.1, hw.2⟩
